import Mathlib

/-!
Shallow embedding of `src/combiner.py` (SDG6 clean-water pipeline).

The script reads a CSV, renames seven columns, casts the household counts
to int and the coordinates to double (a failed cast yields SQL NULL, modelled
as `none`), derives `PercentAccess` and `AccessLevel` per record, groups by
(State, District) to build a district summary with summed counts and a
re-computed percentage rounded by Spark's `round` (HALF_UP), and finally
collects the records into a GeoJSON feature list where each `PercentAccess`
is rounded by Python's `round` (HALF_EVEN); Python's `round` raises a
TypeError when applied to a NULL value, which aborts that export.
Numeric columns are modelled exactly over `Int` and `ℚ`; SQL NULL is `Option`.
-/

/-- A raw CSV cell as Spark sees it before the explicit `cast` calls:
either NULL, a string, an inferred integer, or an inferred double. -/
inductive Cell where
  | null : Cell
  | str (s : String) : Cell
  | intv (n : Int) : Cell
  | doublev (q : ℚ) : Cell
deriving DecidableEq

/-- Strip leading and trailing whitespace (Spark's string casts trim first). -/
def trimChars (cs : List Char) : List Char :=
  ((cs.dropWhile Char.isWhitespace).reverse.dropWhile Char.isWhitespace).reverse

/-- Value of a digit string, most significant first. -/
def digitsVal (cs : List Char) : Nat :=
  cs.foldl (fun n c => 10 * n + (c.toNat - 48)) 0

/-- Integral-format parse: an optional minus sign followed by digits;
anything else is `none` (a failed cast, SQL NULL). -/
def parseIntChars (cs : List Char) : Option Int :=
  match cs with
  | [] => none
  | '-' :: rest =>
    if rest ≠ [] ∧ rest.all Char.isDigit then some (-(digitsVal rest : Int)) else none
  | _ => if cs.all Char.isDigit then some (digitsVal cs : Int) else none

/-- Decimal parse: optional minus sign, digits, optional point and fraction
digits; anything else — including exponent forms, which occur in no claim —
is `none` (a failed cast, SQL NULL). -/
def parseDecimalChars (cs : List Char) : Option ℚ :=
  let neg : Bool := cs.head? == some '-'
  let body := if neg then cs.tail else cs
  let ip := body.takeWhile Char.isDigit
  let rest := body.dropWhile Char.isDigit
  let sign : ℚ := if neg then -1 else 1
  if rest.isEmpty then
    if ip.isEmpty then none else some (sign * (digitsVal ip : ℚ))
  else if rest.head? == some '.' then
    let fp := rest.tail
    if ip.isEmpty = false ∧ fp.isEmpty = false ∧ fp.all Char.isDigit then
      some (sign * ((digitsVal ip : ℚ) + (digitsVal fp : ℚ) / (10 : ℚ) ^ fp.length))
    else none
  else none

/-- `cast("int")`: NULL stays NULL, a string parses as an integer or becomes
NULL, a double truncates toward zero. Never raises: failure is `none`. -/
def castInt : Cell → Option Int
  | Cell.null => none
  | Cell.str s => parseIntChars (trimChars s.data)
  | Cell.intv n => some n
  | Cell.doublev q => some (if 0 ≤ q then ⌊q⌋ else ⌈q⌉)

/-- `cast("double")`: NULL stays NULL, a string parses as a decimal or becomes
NULL. Never raises: failure is `none`. -/
def castDouble : Cell → Option ℚ
  | Cell.null => none
  | Cell.str s => parseDecimalChars (trimChars s.data)
  | Cell.intv n => some (n : ℚ)
  | Cell.doublev q => some q

/-- An input row with the source column names (header of the input CSV). -/
structure RawRow where
  village_name : String
  district : String
  state : String
  total_households : Cell
  households_with_clean_water : Cell
  latitude : Cell
  longitude : Cell
deriving DecidableEq

/-- A row after the `withColumnRenamed` / `cast` block (lines 19-30):
canonical names, `int` counts and `double` coordinates, NULL on cast failure. -/
structure Record where
  Village : String
  District : String
  State : String
  TotalHouseholds : Option Int
  CleanWaterHH : Option Int
  Lat : Option ℚ
  Lon : Option ℚ
deriving DecidableEq

/-- The rename-and-cast stage applied to one raw row. -/
def transformRow (row : RawRow) : Record :=
  { Village := row.village_name
    District := row.district
    State := row.state
    TotalHouseholds := castInt row.total_households
    CleanWaterHH := castInt row.households_with_clean_water
    Lat := castDouble row.latitude
    Lon := castDouble row.longitude }

/-- Line 32-33: `when(col("TotalHouseholds") > 0, (CleanWaterHH/TotalHouseholds)*100)
.otherwise(0)`. A NULL condition falls through to `otherwise`, so a NULL or
non-positive total gives the literal 0; a positive total with NULL
`CleanWaterHH` propagates NULL through the division. -/
def percentAccess (th cw : Option Int) : Option ℚ :=
  match th with
  | some t => if 0 < t then cw.map (fun c => (c : ℚ) / (t : ℚ) * 100) else some 0
  | none => some 0

/-- Lines 34-37: `when(PercentAccess >= 75, "High").when(PercentAccess >= 40,
"Medium").otherwise("Low")`; comparisons against NULL are not satisfied, so a
NULL percentage falls to "Low". -/
def accessLevel (pa : Option ℚ) : String :=
  match pa with
  | some p => if 75 ≤ p then "High" else if 40 ≤ p then "Medium" else "Low"
  | none => "Low"

/-- The derived `PercentAccess` column of a transformed record. -/
def transformedPA (r : Record) : Option ℚ :=
  percentAccess r.TotalHouseholds r.CleanWaterHH

/-- The derived `AccessLevel` column of a transformed record. -/
def transformedLevel (r : Record) : String :=
  accessLevel (transformedPA r)

/-- Spark SQL `round(e, 2)`: HALF_UP to 2 decimals — ties away from zero
(java.math.RoundingMode.HALF_UP, used by Spark's `round`). -/
def roundHalfUp2 (q : ℚ) : ℚ :=
  if 0 ≤ q then ((⌊q * 100 + 1 / 2⌋ : ℤ) : ℚ) / 100
  else -(((⌊-(q * 100) + 1 / 2⌋ : ℤ) : ℚ) / 100)

/-- Python `round(x, 2)`: round half to even at the second decimal. -/
def roundHalfEven2 (q : ℚ) : ℚ :=
  let s := q * 100
  let f : ℤ := ⌊s⌋
  let n : ℤ :=
    if s - (f : ℚ) < 1 / 2 then f
    else if 1 / 2 < s - (f : ℚ) then f + 1
    else if f % 2 = 0 then f else f + 1
  (n : ℚ) / 100

/-- The distinct (State, District) grouping keys, in order of first
appearance (Spark guarantees no particular output order; this is one
valid deterministic order). -/
def keysOf (rs : List Record) : List (String × String) :=
  (rs.map fun r => (r.State, r.District)).dedup

/-- All records of a group: the rows whose key is `k`. -/
def groupRows (rs : List Record) (k : String × String) : List Record :=
  rs.filter fun r => r.State = k.1 ∧ r.District = k.2

/-- SQL `sum` over a column of a group: NULLs are ignored; if every value is
NULL the sum itself is NULL. -/
def sumOpt (xs : List (Option Int)) : Option Int :=
  if (xs.filterMap id).isEmpty then none else some (xs.filterMap id).sum

/-- Lines 44-46: `when(TotalHouseholds > 0, round((CleanWaterHH/TotalHouseholds)*100, 2))
.otherwise(0)` on the summed columns; Spark `round` is HALF_UP and maps NULL
to NULL, and a NULL or non-positive summed total falls to the literal 0. -/
def summaryPA (th cw : Option Int) : Option ℚ :=
  match th with
  | some t => if 0 < t then cw.map (fun c => roundHalfUp2 ((c : ℚ) / (t : ℚ) * 100)) else some 0
  | none => some 0

/-- One row of the `district_summary` output. -/
structure DistrictSummary where
  State : String
  District : String
  TotalHouseholds : Option Int
  CleanWaterHH : Option Int
  PercentAccess : Option ℚ
deriving DecidableEq

/-- The aggregate row for one grouping key (lines 40-46). -/
def summarize (rs : List Record) (k : String × String) : DistrictSummary :=
  let g := groupRows rs k
  let st := sumOpt (g.map fun r => r.TotalHouseholds)
  let sc := sumOpt (g.map fun r => r.CleanWaterHH)
  { State := k.1
    District := k.2
    TotalHouseholds := st
    CleanWaterHH := sc
    PercentAccess := summaryPA st sc }

/-- `df.groupBy("State","District").agg(sum, sum)` followed by the percent
column: one summary row per distinct key present in the data. -/
def districtSummaries (rs : List Record) : List DistrictSummary :=
  (keysOf rs).map (summarize rs)

/-- One GeoJSON feature (lines 53-63): a Point geometry with coordinates
`[Lon, Lat]` and the five properties written by the loop. -/
structure Feature where
  geometryType : String
  coordinates : List (Option ℚ)
  Village : String
  District : String
  State : String
  PercentAccess : ℚ
  AccessLevel : String
deriving DecidableEq

/-- The feature built from a record whose `PercentAccess` evaluated to the
(non-NULL) value `pa`: Python `round(pa, 2)` is HALF_EVEN. -/
def mkFeatureVal (r : Record) (pa : ℚ) : Feature :=
  { geometryType := "Point"
    coordinates := [r.Lon, r.Lat]
    Village := r.Village
    District := r.District
    State := r.State
    PercentAccess := roundHalfEven2 pa
    AccessLevel := transformedLevel r }

/-- One iteration of the feature loop: `round(r.PercentAccess, 2)` raises a
TypeError when `r.PercentAccess` is NULL (Python `None`), so the result is
`none` exactly when the record's percentage is NULL. -/
def mkFeature (r : Record) : Option Feature :=
  (transformedPA r).map (mkFeatureVal r)

/-- The whole feature loop (lines 50-64): if any record's `PercentAccess` is
NULL the loop raises and no GeoJSON document is produced. -/
def buildFeatures : List Record → Option (List Feature)
  | [] => some []
  | r :: rs =>
    match mkFeature r, buildFeatures rs with
    | some f, some fs => some (f :: fs)
    | _, _ => none

/-- The two output artifacts the claims are about, as the contents currently
stored at their paths in the output directory (`none` = file absent). -/
structure Store where
  districtSummaryCsv : Option (List DistrictSummary)
  pointsGeojson : Option (List Feature)
deriving DecidableEq

/-- One run of `main` over already-loaded records: the summary CSV is written
(mode "overwrite") first; the GeoJSON is then written with `open(..., "w")`
unless the feature loop raised, in which case the run aborts after the
summary write and the old `points.geojson` is left in place. -/
def runPipeline (st : Store) (rs : List Record) : Store :=
  let st1 : Store := { st with districtSummaryCsv := some (districtSummaries rs) }
  match buildFeatures rs with
  | some fs => { st1 with pointsGeojson := some fs }
  | none => st1

/-- The usage line printed on a wrong argument count (line 122). -/
def usageMessage : String :=
  "Usage: spark-submit sdg6_cleanwater_allinone.py <input_csv> <output_folder>"

/-- Outcome of the `__main__` guard: either a usage message with an exit
code, or `main` ran. -/
inductive EntryResult where
  | usage (msg : String) (exitCode : Nat) : EntryResult
  | ran : EntryResult
deriving DecidableEq

/-- Lines 120-124: `sys.argv` has the program name at index 0; unless
`len(sys.argv) == 3` the usage line is printed and the process exits with
status 1 before any processing, leaving the store untouched; otherwise
`main(argv[1], argv[2])` runs (`load` stands for the CSV read). -/
def mainEntry (st : Store) (argv : List String) (load : String → List Record) :
    Store × EntryResult :=
  if argv.length ≠ 3 then (st, EntryResult.usage usageMessage 1)
  else (runPipeline st (load (argv.getD 1 "")), EntryResult.ran)

/-- End-to-end example record A of the spec: Total=100, Clean=80. -/
def recA : Record :=
  { Village := "A", District := "D1", State := "S1"
    TotalHouseholds := some 100, CleanWaterHH := some 80
    Lat := some 10, Lon := some 76 }

/-- End-to-end example record B of the spec: Total=50, Clean=10, same district. -/
def recB : Record :=
  { Village := "B", District := "D1", State := "S1"
    TotalHouseholds := some 50, CleanWaterHH := some 10
    Lat := some 11, Lon := some 77 }

/-- A record whose two count fields both failed coercion (both NULL). -/
def recNulls : Record :=
  { Village := "N", District := "D1", State := "S1"
    TotalHouseholds := none, CleanWaterHH := none
    Lat := none, Lon := none }

/-- A record whose exact percentage is 0.125: 1 of 800 households. -/
def rec800 : Record :=
  { Village := "E", District := "D1", State := "S1"
    TotalHouseholds := some 800, CleanWaterHH := some 1
    Lat := some 12, Lon := some 78 }

/-- The district summary of the spec's example district (records A and B):
150 total households, 90 with clean water, 60 percent access. -/
def sumAB : DistrictSummary :=
  { State := "S1", District := "D1", TotalHouseholds := some 150,
    CleanWaterHH := some 90, PercentAccess := some 60 }

/-- A raw row whose clean-water count is non-numeric (fails the int cast)
while the total parses to a positive integer. -/
def rawBadCW : RawRow :=
  { village_name := "V", district := "D1", state := "S1"
    total_households := Cell.str "5"
    households_with_clean_water := Cell.str "abc"
    latitude := Cell.str "10.5", longitude := Cell.str "76.25" }


/-! ### Helper lemmas -/

lemma filterMap_id_sum (xs : List (Option Int)) :
    (xs.filterMap id).sum = (xs.map (fun o => o.getD 0)).sum := by
  induction xs with
  | nil => rfl
  | cons x xs ih => cases x <;> simp [List.filterMap_cons, ih]

lemma sumOpt_eq_getD_sum (xs : List (Option Int)) (h : ∃ x ∈ xs, x ≠ none) :
    sumOpt xs = some ((xs.map (fun o => o.getD 0)).sum) := by
  obtain ⟨x, hx, hxn⟩ := h
  have hne : (xs.filterMap id).isEmpty = false := by
    cases x with
    | none => exact absurd rfl hxn
    | some a =>
      have hm : a ∈ xs.filterMap id := List.mem_filterMap.mpr ⟨some a, hx, rfl⟩
      cases e : xs.filterMap id with
      | nil => rw [e] at hm; cases hm
      | cons y ys => rfl
  simp [sumOpt, hne, filterMap_id_sum]

lemma countP_eq_one_of_nodup {α : Type} (p : α → Bool) (l : List α) (a : α)
    (hp : ∀ x, p x = true ↔ x = a) (hn : l.Nodup) (ha : a ∈ l) : l.countP p = 1 := by
  induction l with
  | nil => cases ha
  | cons b l ih =>
    rcases List.nodup_cons.mp hn with ⟨hb, hl⟩
    rcases List.mem_cons.mp ha with h | h
    · have hpb : p b = true := (hp b).mpr h.symm
      have h0 : l.countP p = 0 := by
        rw [List.countP_eq_zero]
        intro x hx hpx
        have : x = a := (hp x).mp hpx
        exact hb (h ▸ this ▸ hx)
      simp [List.countP_cons, hpb, h0]
    · have hba : b ≠ a := fun e => hb (e ▸ h)
      have hpb : p b = false := by
        cases e : p b
        · rfl
        · exact absurd ((hp b).mp e) hba
      simp [List.countP_cons, hpb, ih hl h]

lemma keysOf_nodup (rs : List Record) : (keysOf rs).Nodup :=
  List.nodup_dedup _

lemma mem_keysOf {rs : List Record} {s d : String}
    (h : ∃ r ∈ rs, r.State = s ∧ r.District = d) : (s, d) ∈ keysOf rs := by
  obtain ⟨r, hr, hs, hd⟩ := h
  exact List.mem_dedup.mpr (List.mem_map.mpr ⟨r, hr, by rw [hs, hd]⟩)

lemma mem_districtSummaries {rs : List Record} {g : DistrictSummary} :
    g ∈ districtSummaries rs ↔ ∃ k ∈ keysOf rs, summarize rs k = g :=
  List.mem_map

lemma buildFeatures_eq_some {rs : List Record} {fs : List Feature}
    (h : buildFeatures rs = some fs) :
    fs.length = rs.length ∧
    ∀ i, i < rs.length → ∃ r pa, rs[i]? = some r ∧ transformedPA r = some pa ∧
      fs[i]? = some (mkFeatureVal r pa) := by
  induction rs generalizing fs with
  | nil =>
    simp only [buildFeatures, Option.some_inj] at h
    subst h
    exact ⟨rfl, fun i hi => by simp at hi⟩
  | cons r rs ih =>
    rw [buildFeatures] at h
    cases hm : mkFeature r with
    | none => rw [hm] at h; cases h
    | some f =>
      cases hb : buildFeatures rs with
      | none => rw [hm, hb] at h; cases h
      | some fs0 =>
        rw [hm, hb] at h
        cases h
        obtain ⟨hlen, hidx⟩ := ih hb
        refine ⟨by simp [hlen], fun i hi => ?_⟩
        cases i with
        | zero =>
          rw [mkFeature] at hm
          cases hpa : transformedPA r with
          | none => rw [hpa] at hm; cases hm
          | some pa =>
            rw [hpa] at hm
            have hf : f = mkFeatureVal r pa := by simpa using hm.symm
            exact ⟨r, pa, by simp, hpa, by simp [hf]⟩
        | succ j =>
          obtain ⟨r0, pa, h1, h2, h3⟩ := hidx j (by simpa using hi)
          exact ⟨r0, pa, by simpa using h1, h2, by simpa using h3⟩

/-! ### Claims -/

/-- Claim C1: for every transformed record, if `TotalHouseholds > 0` then
`PercentAccess = (CleanWaterHH / TotalHouseholds) * 100`, otherwise it is the
literal 0 (in particular whenever `TotalHouseholds = 0`, regardless of
`CleanWaterHH`, including a NULL one); no rounding and no clamping to
[0,100] is applied at the record level. -/
theorem spec_C1_percent_access_formula :
    (∀ t c : Int, 0 < t →
      percentAccess (some t) (some c) = some ((c : ℚ) / (t : ℚ) * 100)) ∧
    (∀ t : Int, ¬ 0 < t → ∀ cw : Option Int, percentAccess (some t) cw = some 0) ∧
    (∀ cw : Option Int, percentAccess none cw = some 0) ∧
    (∀ cw : Option Int, percentAccess (some 0) cw = some 0) ∧
    (percentAccess (some 1) (some 2) = some 200 ∧ (100 : ℚ) < 200) := by
  refine ⟨?_, ?_, ?_, ?_, ?_, by norm_num⟩
  · intro t c ht
    simp [percentAccess, ht]
  · intro t ht cw
    simp [percentAccess, ht]
  · intro cw
    rfl
  · intro cw
    simp [percentAccess]
  · norm_num [percentAccess]

/-- Witness for C1 at Total=4, Clean=1 and at Total=0, Clean=7. -/
theorem spec_C1_witness :
    percentAccess (some 4) (some 1) = some (((1 : ℤ) : ℚ) / ((4 : ℤ) : ℚ) * 100) ∧
    percentAccess (some 0) (some 7) = some 0 :=
  ⟨spec_C1_percent_access_formula.1 4 1 (by norm_num),
   spec_C1_percent_access_formula.2.1 0 (by norm_num) (some 7)⟩

/-- Claim C2: `AccessLevel` is a total function of `PercentAccess`, evaluated
first-match-wins: at least 75 gives "High", otherwise at least 40 gives
"Medium", otherwise "Low"; the boundaries 75 and 40 are inclusive in the
upper tier, and a zero-household record (percentage 0) is "Low". -/
theorem spec_C2_access_level :
    (∀ p : ℚ, accessLevel (some p) =
        if 75 ≤ p then "High" else if 40 ≤ p then "Medium" else "Low") ∧
    accessLevel (some 75) = "High" ∧
    accessLevel (some 40) = "Medium" ∧
    (∀ p : ℚ, 75 ≤ p → accessLevel (some p) = "High") ∧
    (∀ p : ℚ, 40 ≤ p → p < 75 → accessLevel (some p) = "Medium") ∧
    (∀ p : ℚ, p < 40 → accessLevel (some p) = "Low") ∧
    (∀ cw : Option Int, accessLevel (percentAccess (some 0) cw) = "Low") := by
  refine ⟨fun p => rfl, by norm_num [accessLevel], by norm_num [accessLevel],
    ?_, ?_, ?_, ?_⟩
  · intro p h
    simp [accessLevel, h]
  · intro p h1 h2
    have h3 : ¬ 75 ≤ p := by linarith
    simp [accessLevel, h1, h3]
  · intro p h
    have h1 : ¬ 75 ≤ p := by linarith
    have h2 : ¬ 40 ≤ p := by linarith
    simp [accessLevel, h1, h2]
  · intro cw
    have h : percentAccess (some 0) cw = some 0 := by simp [percentAccess]
    rw [h]
    norm_num [accessLevel]

/-- Witness for C2 at the boundary 40 and at 50 inside the "Medium" tier. -/
theorem spec_C2_witness :
    accessLevel (some 50) = "Medium" ∧ accessLevel (some 75) = "High" :=
  ⟨spec_C2_access_level.2.2.2.2.1 50 (by norm_num) (by norm_num),
   spec_C2_access_level.2.2.2.1 75 (by norm_num)⟩

/-- Claim C9 (implicit): a row with a positive total but a NULL clean-water count
has NULL `PercentAccess` (not 0) and classifies "Low"; a row with NULL or
negative total gets the literal 0 (the `otherwise` branch, since the guard is
strictly `> 0`) and also classifies "Low". -/
theorem spec_C9_null_propagation :
    (∀ t : Int, 0 < t →
      percentAccess (some t) none = none ∧
      percentAccess (some t) none ≠ some 0 ∧
      accessLevel (percentAccess (some t) none) = "Low") ∧
    (∀ cw : Option Int,
      percentAccess none cw = some 0 ∧
      accessLevel (percentAccess none cw) = "Low") ∧
    (∀ t : Int, t < 0 → ∀ cw : Option Int,
      percentAccess (some t) cw = some 0 ∧
      accessLevel (percentAccess (some t) cw) = "Low") := by
  refine ⟨?_, ?_, ?_⟩
  · intro t ht
    have h : percentAccess (some t) none = none := by simp [percentAccess, ht]
    exact ⟨h, by simp [h], by simp [h, accessLevel]⟩
  · intro cw
    refine ⟨rfl, ?_⟩
    have h : percentAccess none cw = some 0 := rfl
    rw [h]
    norm_num [accessLevel]
  · intro t ht cw
    have hn : ¬ 0 < t := by omega
    have h : percentAccess (some t) cw = some 0 := by simp [percentAccess, hn]
    refine ⟨h, ?_⟩
    rw [h]
    norm_num [accessLevel]

/-- Witness for C9 at Total=5 with NULL clean-water, and at Total=-3. -/
theorem spec_C9_witness :
    (percentAccess (some 5) none = none ∧
     percentAccess (some 5) none ≠ some 0 ∧
     accessLevel (percentAccess (some 5) none) = "Low") ∧
    (percentAccess (some (-3)) (some 2) = some 0 ∧
     accessLevel (percentAccess (some (-3)) (some 2)) = "Low") :=
  ⟨spec_C9_null_propagation.1 5 (by norm_num),
   spec_C9_null_propagation.2.2 (-3) (by norm_num) (some 2)⟩

/-- Claim C10 (implicit): within one run the two serialized `PercentAccess`
values use different tie-breaking — Spark's `round` (HALF_UP) for the
summary CSV and Python's `round` (HALF_EVEN) for the GeoJSON — so the exact
percentage 0.125 (1 clean household of 800) serializes as 0.13 in the
summary but 0.12 in the GeoJSON. -/
theorem spec_C10_rounding_divergence :
    roundHalfUp2 ((1 : ℚ) / 8) = 13 / 100 ∧
    roundHalfEven2 ((1 : ℚ) / 8) = 12 / 100 ∧
    (districtSummaries [rec800]).map DistrictSummary.PercentAccess = [some (13 / 100)] ∧
    (buildFeatures [rec800]).map (fun fs => fs.map Feature.PercentAccess) = some [12 / 100] ∧
    (13 : ℚ) / 100 ≠ 12 / 100 := by
  refine ⟨by norm_num [roundHalfUp2], by norm_num [roundHalfEven2], ?_, ?_, by norm_num⟩
  · simp [districtSummaries, keysOf, summarize, groupRows, sumOpt, summaryPA, rec800]
    norm_num [roundHalfUp2]
  · have h : transformedPA rec800 = some (1 / 8) := by
      norm_num [transformedPA, percentAccess, rec800]
    simp [buildFeatures, mkFeature, h, mkFeatureVal]
    norm_num [roundHalfEven2]

/-- Claim C3: every district summary's `PercentAccess` is `round((summed clean /
summed total) * 100, 2)` (Spark HALF_UP) when the summed total is positive,
and the literal 0 otherwise (non-positive or NULL summed total); and it is
not in general the mean of the per-record percentages: for the spec's
two-village district (80% and 20%) the summary says 60, not the mean 50. -/
theorem spec_C3_summary_percent :
    (∀ (rs : List Record) (g : DistrictSummary), g ∈ districtSummaries rs →
      (∀ st sc : Int, g.TotalHouseholds = some st → 0 < st →
        g.CleanWaterHH = some sc →
        g.PercentAccess = some (roundHalfUp2 ((sc : ℚ) / (st : ℚ) * 100))) ∧
      (∀ st : Int, g.TotalHouseholds = some st → ¬ 0 < st →
        g.PercentAccess = some 0) ∧
      (g.TotalHouseholds = none → g.PercentAccess = some 0)) ∧
    ((districtSummaries [recA, recB]).map DistrictSummary.PercentAccess = [some 60] ∧
     ([recA, recB].map (fun r => (transformedPA r).getD 0)).sum / 2 = (50 : ℚ) ∧
     (50 : ℚ) ≠ 60) := by
  constructor
  · intro rs g hg
    obtain ⟨k, hk, rfl⟩ := mem_districtSummaries.mp hg
    have hPA : (summarize rs k).PercentAccess =
        summaryPA (summarize rs k).TotalHouseholds (summarize rs k).CleanWaterHH := rfl
    refine ⟨?_, ?_, ?_⟩
    · intro st sc h1 h2 h3
      rw [hPA, h1, h3]
      simp [summaryPA, h2]
    · intro st h1 h2
      rw [hPA, h1]
      simp [summaryPA, h2]
    · intro h1
      rw [hPA, h1]
      rfl
  · have hA : transformedPA recA = some 80 := by
      norm_num [transformedPA, percentAccess, recA]
    have hB : transformedPA recB = some 20 := by
      norm_num [transformedPA, percentAccess, recB]
    refine ⟨?_, ?_, by norm_num⟩
    · simp [districtSummaries, keysOf, summarize, groupRows, sumOpt, summaryPA, recA, recB]
      norm_num [roundHalfUp2]
    · rw [List.map_cons, List.map_cons, List.map_nil, hA, hB]
      norm_num

/-- Witness for C3: the spec's example district (150 total, 90 clean)
reports the HALF_UP rounding of 90/150*100. -/
theorem spec_C3_witness :
    sumAB.PercentAccess = some (roundHalfUp2 (((90 : ℤ) : ℚ) / ((150 : ℤ) : ℚ) * 100)) := by
  have hsum : districtSummaries [recA, recB] = [sumAB] := by
    simp [districtSummaries, keysOf, summarize, groupRows, sumOpt, summaryPA, recA, recB, sumAB]
    norm_num [roundHalfUp2]
  have hg : sumAB ∈ districtSummaries [recA, recB] := by
    rw [hsum]
    exact List.mem_singleton.mpr rfl
  exact (spec_C3_summary_percent.1 [recA, recB] sumAB hg).1 150 90 rfl (by norm_num) rfl

/-- Claim C4 counterexample: a group whose `TotalHouseholds` values are all NULL
gets a NULL summary field (SQL `sum` of only NULLs is NULL), not the 0 that
"null treated as zero" would give: the claim fails at the one-record input
`recNulls`. -/
theorem spec_C4_counterexample :
    (districtSummaries [recNulls]).map DistrictSummary.TotalHouseholds = [none] ∧
    ([recNulls].map (fun r => r.TotalHouseholds.getD 0)).sum = 0 ∧
    (none : Option Int) ≠ some 0 := by
  refine ⟨by decide, by simp [recNulls], by simp⟩

/-- Claim C4 amended: every (State, District) pair present in the records yields
exactly one summary row; its `TotalHouseholds` and `CleanWaterHH` are the SQL
sums of the group (NULLs ignored), which equal the exact null-as-zero sums
whenever the group has at least one non-NULL value in that column; a group
that is all-NULL in a column gets NULL there, not 0. No record is dropped or
double-counted. -/
theorem spec_C4_aggregation (rs : List Record) (s d : String)
    (h : ∃ r ∈ rs, r.State = s ∧ r.District = d) :
    (districtSummaries rs).countP
      (fun g => decide (g.State = s ∧ g.District = d)) = 1 ∧
    ∀ g ∈ districtSummaries rs, g.State = s → g.District = d →
      g.TotalHouseholds = sumOpt ((groupRows rs (s, d)).map (fun r => r.TotalHouseholds)) ∧
      g.CleanWaterHH = sumOpt ((groupRows rs (s, d)).map (fun r => r.CleanWaterHH)) ∧
      ((∃ r ∈ groupRows rs (s, d), r.TotalHouseholds ≠ none) →
        g.TotalHouseholds =
          some (((groupRows rs (s, d)).map (fun r => r.TotalHouseholds.getD 0)).sum)) ∧
      ((∃ r ∈ groupRows rs (s, d), r.CleanWaterHH ≠ none) →
        g.CleanWaterHH =
          some (((groupRows rs (s, d)).map (fun r => r.CleanWaterHH.getD 0)).sum)) := by
  constructor
  · have hmem : (s, d) ∈ keysOf rs := mem_keysOf h
    rw [districtSummaries, List.countP_map]
    apply countP_eq_one_of_nodup _ _ (s, d) _ (keysOf_nodup rs) hmem
    intro k
    simp [Function.comp, summarize, Prod.ext_iff]
  · intro g hg hs hd
    obtain ⟨k, hk, rfl⟩ := mem_districtSummaries.mp hg
    have hk1 : k = (s, d) := by
      have h1 : k.1 = s := hs
      have h2 : k.2 = d := hd
      exact Prod.ext h1 h2
    subst hk1
    have hT : (summarize rs (s, d)).TotalHouseholds =
        sumOpt ((groupRows rs (s, d)).map (fun r => r.TotalHouseholds)) := rfl
    have hC : (summarize rs (s, d)).CleanWaterHH =
        sumOpt ((groupRows rs (s, d)).map (fun r => r.CleanWaterHH)) := rfl
    refine ⟨hT, hC, ?_, ?_⟩
    · rintro ⟨r, hr, hrn⟩
      rw [hT, sumOpt_eq_getD_sum _ ⟨r.TotalHouseholds, List.mem_map.mpr ⟨r, hr, rfl⟩, hrn⟩,
        List.map_map]
      rfl
    · rintro ⟨r, hr, hrn⟩
      rw [hC, sumOpt_eq_getD_sum _ ⟨r.CleanWaterHH, List.mem_map.mpr ⟨r, hr, rfl⟩, hrn⟩,
        List.map_map]
      rfl

/-- Witness for C4 (amended) on the one-record input containing record A:
exactly one summary row for its district. -/
theorem spec_C4_witness :
    (districtSummaries [recA]).countP
      (fun g => decide (g.State = "S1" ∧ g.District = "D1")) = 1 :=
  (spec_C4_aggregation [recA] "S1" "D1"
    ⟨recA, List.mem_singleton.mpr rfl, rfl, rfl⟩).1

/-- Claim C5: when the GeoJSON export succeeds, the feature list has exactly one
feature per input record, in order: the i-th feature is a Point with
coordinates `[Lon, Lat]` (longitude first) of the i-th record and carries its
Village, District, State, its `AccessLevel`, and its record-level
`PercentAccess` rounded to 2 decimals. -/
theorem spec_C5_geojson_roundtrip (rs : List Record) (fs : List Feature)
    (h : buildFeatures rs = some fs) :
    fs.length = rs.length ∧
    ∀ i, i < rs.length → ∃ r pa, rs[i]? = some r ∧ transformedPA r = some pa ∧
      fs[i]? = some
        { geometryType := "Point"
          coordinates := [r.Lon, r.Lat]
          Village := r.Village
          District := r.District
          State := r.State
          PercentAccess := roundHalfEven2 pa
          AccessLevel := transformedLevel r } :=
  buildFeatures_eq_some h

/-- Witness for C5 on the one-record input containing record A. -/
theorem spec_C5_witness :
    ([mkFeatureVal recA 80] : List Feature).length = [recA].length := by
  have hp : transformedPA recA = some 80 := by
    norm_num [transformedPA, percentAccess, recA]
  have h : buildFeatures [recA] = some [mkFeatureVal recA 80] := by
    simp [buildFeatures, mkFeature, hp]
  exact (spec_C5_geojson_roundtrip [recA] [mkFeatureVal recA 80] h).1

/-- Claim C6 counterexample: the raw row `rawBadCW` has a positive total and a
non-numeric clean-water count; coercion yields NULL without raising, but the
GeoJSON export then aborts (Python `round(None, 2)` raises a TypeError), so
the NULL does not propagate silently through the exports as the claim
states. -/
theorem spec_C6_counterexample :
    (transformRow rawBadCW).CleanWaterHH = none ∧
    transformedPA (transformRow rawBadCW) = none ∧
    buildFeatures [transformRow rawBadCW] = none := by
  exact ⟨by decide, by decide, by decide⟩

/-- Claim C6 amended: a failed coercion becomes NULL rather than raising, and the
NULL propagates through `PercentAccess`, `AccessLevel` and the district
summary (the CSV export still happens); but a record with a positive total
and a NULL clean-water count has NULL `PercentAccess`, and the GeoJSON
export then aborts on it instead of propagating silently. -/
theorem spec_C6_coercion (row : RawRow) (t : Int)
    (hcw : castInt row.households_with_clean_water = none)
    (hth : castInt row.total_households = some t) (ht : 0 < t) :
    (transformRow row).CleanWaterHH = none ∧
    transformedPA (transformRow row) = none ∧
    transformedLevel (transformRow row) = "Low" ∧
    (districtSummaries [transformRow row]).length = 1 ∧
    buildFeatures [transformRow row] = none := by
  have h1 : (transformRow row).CleanWaterHH = none := by
    simp [transformRow, hcw]
  have h2 : transformedPA (transformRow row) = none := by
    simp [transformedPA, transformRow, hcw, hth, percentAccess, ht]
  refine ⟨h1, h2, ?_, ?_, ?_⟩
  · simp [transformedLevel, h2, accessLevel]
  · simp [districtSummaries, keysOf]
  · simp [buildFeatures, mkFeature, h2]

/-- Witness for C6 (amended) at the concrete raw row `rawBadCW`. -/
theorem spec_C6_witness :
    (transformRow rawBadCW).CleanWaterHH = none ∧
    transformedPA (transformRow rawBadCW) = none ∧
    transformedLevel (transformRow rawBadCW) = "Low" ∧
    (districtSummaries [transformRow rawBadCW]).length = 1 ∧
    buildFeatures [transformRow rawBadCW] = none :=
  spec_C6_coercion rawBadCW 5 (by decide) (by decide) (by norm_num)

/-- Claim C7: one run is a deterministic function of the loaded records, each
write fully overwrites its target, so a second run over the same input
leaves the store exactly as the first run did, and the two artifacts the
claim names do not depend on what was previously in the output directory
(when the GeoJSON export succeeds it is the same on both runs). -/
theorem spec_C7_idempotent :
    (∀ (st : Store) (rs : List Record),
      runPipeline (runPipeline st rs) rs = runPipeline st rs) ∧
    (∀ (st st' : Store) (rs : List Record),
      (runPipeline st rs).districtSummaryCsv = (runPipeline st' rs).districtSummaryCsv) ∧
    (∀ (st st' : Store) (rs : List Record) (fs : List Feature),
      buildFeatures rs = some fs →
      (runPipeline st rs).pointsGeojson = some fs ∧
      (runPipeline st' rs).pointsGeojson = some fs) := by
  refine ⟨?_, ?_, ?_⟩
  · intro st rs
    cases h : buildFeatures rs <;> simp [runPipeline, h]
  · intro st st' rs
    cases h : buildFeatures rs <;> simp [runPipeline, h]
  · intro st st' rs fs h
    constructor <;> simp [runPipeline, h]

/-- Witness for C7: the GeoJSON artifact after a run over record A is the
same from an empty store and from a non-empty one. -/
theorem spec_C7_witness :
    (runPipeline ⟨none, none⟩ [recA]).pointsGeojson = some [mkFeatureVal recA 80] ∧
    (runPipeline ⟨some [], some []⟩ [recA]).pointsGeojson = some [mkFeatureVal recA 80] := by
  have hp : transformedPA recA = some 80 := by
    norm_num [transformedPA, percentAccess, recA]
  have h : buildFeatures [recA] = some [mkFeatureVal recA 80] := by
    simp [buildFeatures, mkFeature, hp]
  exact spec_C7_idempotent.2.2 ⟨none, none⟩ ⟨some [], some []⟩ [recA] [mkFeatureVal recA 80] h

/-- Claim C8: the entry point takes exactly two positional arguments after the
program name; with any other count it prints the usage line and exits with
status 1 (non-zero) before any processing, leaving the store untouched;
with exactly two it runs the pipeline on the loaded input. -/
theorem spec_C8_usage_guard :
    (∀ (st : Store) (prog : String) (args : List String) (load : String → List Record),
      args.length ≠ 2 →
      mainEntry st (prog :: args) load = (st, EntryResult.usage usageMessage 1) ∧
      (1 : Nat) ≠ 0) ∧
    (∀ (st : Store) (prog i o : String) (load : String → List Record),
      mainEntry st [prog, i, o] load = (runPipeline st (load i), EntryResult.ran)) := by
  constructor
  · intro st prog args load h
    have hlen : (prog :: args).length ≠ 3 := by
      simp only [List.length_cons]
      omega
    exact ⟨by rw [mainEntry, if_pos hlen], by norm_num⟩
  · intro st prog i o load
    rw [mainEntry, if_neg (by simp)]
    rfl

/-- Witness for C8 at an invocation with zero user arguments. -/
theorem spec_C8_witness :
    mainEntry ⟨none, none⟩ ["p"] (fun _ => []) =
      (⟨none, none⟩, EntryResult.usage usageMessage 1) ∧ (1 : Nat) ≠ 0 :=
  spec_C8_usage_guard.1 ⟨none, none⟩ "p" [] (fun _ => []) (by norm_num)
